import Mathlib

/-!
Verification of the nano-torrent client core against its specification.

This file shallowly embeds the relevant parts of the Python sources
(`piece.py`, `block.py`, `piece_manager.py`, `peer_connection.py`,
`tracker.py`, `torrent_client.py`).  Bytes are modelled as `Nat` values
below 256 in `List Nat`; machine words use explicit `% 2^32`; Python
code that can raise is modelled with `Except PyError`.
-/

deriving instance DecidableEq for Except

namespace NanoTorrent

/-- The kinds of Python runtime errors the embedded code can raise.
`attributeError a` models `AttributeError` for the missing attribute `a`. -/
inductive PyError
  | attributeError (attr : String)
  | typeError
  | valueError
  | keyError
  | indexError
  | structError
deriving DecidableEq, Repr

/-- Big-endian 4-byte encoding of a word, as produced by `struct.pack` with
a `>I` format.  `struct.pack` raises for `n ≥ 2^32`; theorems that use this
helper carry that bound as a hypothesis. -/
def u32be (n : Nat) : List Nat :=
  [n / 16777216 % 256, n / 65536 % 256, n / 256 % 256, n % 256]

/-- Big-endian 4-byte decode, as computed by `struct.unpack` with a `>I`
format on the first four bytes of the buffer.  Every call site in the
embedded code guarantees at least four bytes. -/
def u32val : List Nat → Nat
  | b0 :: b1 :: b2 :: b3 :: _ => 16777216 * b0 + 65536 * b1 + 256 * b2 + b3
  | _ => 0

/-- Big-endian 8-byte encoding of a word (the SHA-1 length field). -/
def u64be (n : Nat) : List Nat :=
  [n / 2 ^ 56 % 256, n / 2 ^ 48 % 256, n / 2 ^ 40 % 256, n / 2 ^ 32 % 256,
   n / 16777216 % 256, n / 65536 % 256, n / 256 % 256, n % 256]

/-! ## SHA-1 (`hashlib.sha1`), executable over byte lists -/

/-- Rotate a 32-bit word left by `s` bits (the word is `< 2^32`). -/
def rotl32 (s x : Nat) : Nat :=
  ((x <<< s) % 4294967296) ||| (x >>> (32 - s))

/-- SHA-1 message padding: append `0x80`, zero bytes up to 56 mod 64,
then the 64-bit big-endian bit length. -/
def sha1pad (msg : List Nat) : List Nat :=
  msg ++ [128] ++ List.replicate ((119 - msg.length % 64) % 64) 0 ++ u64be (8 * msg.length)

/-- Split a byte list whose length is a multiple of 64 into 64-byte chunks. -/
def chunks64 (l : List Nat) : List (List Nat) :=
  (List.range (l.length / 64)).map (fun i => (l.drop (64 * i)).take 64)

/-- Group bytes into big-endian 32-bit words. -/
def toWords : List Nat → List Nat
  | a :: b :: c :: d :: rest => (16777216 * a + 65536 * b + 256 * c + d) :: toWords rest
  | _ => []

/-- Extend the 16 words of a chunk to the 80-word SHA-1 schedule. -/
def sha1schedule (init : Array Nat) : Array Nat :=
  (List.range 64).foldl
    (fun acc _ =>
      let i := acc.size
      let v := Nat.xor (Nat.xor (acc.getD (i - 3) 0) (acc.getD (i - 8) 0))
                 (Nat.xor (acc.getD (i - 14) 0) (acc.getD (i - 16) 0))
      acc.push (rotl32 1 v))
    init

/-- One round of the SHA-1 compression: state is `(a, b, c, d, e, round index)`. -/
def sha1step (st : Nat × Nat × Nat × Nat × Nat × Nat) (w : Nat) :
    Nat × Nat × Nat × Nat × Nat × Nat :=
  let (a, b, c, d, e, i) := st
  let f :=
    if i < 20 then (b &&& c) ||| ((Nat.xor b 4294967295) &&& d)
    else if i < 40 then Nat.xor (Nat.xor b c) d
    else if i < 60 then (b &&& c) ||| ((b &&& d) ||| (c &&& d))
    else Nat.xor (Nat.xor b c) d
  let k :=
    if i < 20 then 1518500249
    else if i < 40 then 1859775393
    else if i < 60 then 2400959708
    else 3395469782
  let temp := (rotl32 5 a + f + e + k + w) % 4294967296
  (temp, a, rotl32 30 b, c, d, i + 1)

/-- Compress one 64-byte chunk into the running hash state. -/
def sha1compress (h : Nat × Nat × Nat × Nat × Nat) (chunk : List Nat) :
    Nat × Nat × Nat × Nat × Nat :=
  let ws := sha1schedule (Array.mk (toWords chunk))
  let (h0, h1, h2, h3, h4) := h
  let (a, b, c, d, e, _) := ws.toList.foldl sha1step (h0, h1, h2, h3, h4, 0)
  ((h0 + a) % 4294967296, (h1 + b) % 4294967296, (h2 + c) % 4294967296,
   (h3 + d) % 4294967296, (h4 + e) % 4294967296)

/-- SHA-1 digest of a byte list, 20 bytes. -/
def sha1 (msg : List Nat) : List Nat :=
  let (h0, h1, h2, h3, h4) :=
    (chunks64 (sha1pad msg)).foldl sha1compress
      (1732584193, 4023233417, 2562383102, 271733878, 3285377520)
  u32be h0 ++ u32be h1 ++ u32be h2 ++ u32be h3 ++ u32be h4

set_option maxRecDepth 100000 in
/-- Sanity check against the published SHA-1 test vector for the empty string
(`da39a3ee5e6b4b0d3255bfef95601890afd80709`). -/
theorem sha1_empty_vector :
    sha1 [] = [0xda, 0x39, 0xa3, 0xee, 0x5e, 0x6b, 0x4b, 0x0d, 0x32, 0x55,
               0xbf, 0xef, 0x95, 0x60, 0x18, 0x90, 0xaf, 0xd8, 0x07, 0x09] := by
  decide

/-! ## `block.py` and `piece.py` -/

/-- Block status constants from `block.py` (`Missing = 0`, `Pending = 1`,
`Retrieved = 2`). -/
inductive BlockStatus
  | missing
  | pending
  | retrieved
deriving DecidableEq, Repr

/-- A block of a piece (`block.py`): piece index, offset inside the piece,
length, status, and the downloaded data (`None` until retrieved). -/
structure Block where
  piece : Nat
  offset : Nat
  length : Nat
  status : BlockStatus
  data : Option (List Nat)
deriving DecidableEq, Repr

/-- The `Block.__init__` constructor: status starts `Missing`, data absent. -/
def mkBlock (piece offset length : Nat) : Block :=
  ⟨piece, offset, length, BlockStatus.missing, none⟩

/-- A piece (`piece.py`): index, blocks, and the 20-byte SHA-1 digest from
the metainfo (`self.hash`). -/
structure Piece where
  index : Nat
  blocks : List Block
  hash : List Nat
deriving DecidableEq, Repr

/-- Stable insertion of a block into a list sorted by offset; models the
stability of Python `sorted`. -/
def insertByOffset (b : Block) : List Block → List Block
  | [] => [b]
  | x :: xs => if x.offset ≤ b.offset then x :: insertByOffset b xs else b :: x :: xs

/-- Python `sorted(self.blocks, key=lambda b: b.offset)`: a stable sort by
offset. -/
def sortByOffset (blocks : List Block) : List Block :=
  blocks.foldl (fun acc b => insertByOffset b acc) []

/-- The `Piece.data` property: sort the blocks by offset and join their data
with `b''.join`.  Python `join` raises `TypeError` when any block still has
`data = None`. -/
def Piece.pieceData (p : Piece) : Except PyError (List Nat) :=
  let sorted := sortByOffset p.blocks
  if sorted.all (fun b => b.data.isSome) then
    Except.ok (sorted.foldr (fun b acc => b.data.getD [] ++ acc) [])
  else
    Except.error PyError.typeError

/-- The `Piece.is_complete` method as written in `piece.py`: it computes
`sha1(self.data).digest()` and compares it with `self.hash` — a hash check,
not a block-status check. -/
def Piece.is_complete (p : Piece) : Except PyError Bool := do
  let d ← p.pieceData
  pure (p.hash == sha1 d)

/-! ## `piece_manager.py` -/

/-- A pending-request table entry (`PendingRequest` namedtuple): the block
and the millisecond timestamp at which it was first requested.  Note that a
Python namedtuple is immutable: assigning to a field raises
`AttributeError`. -/
structure PendingRequest where
  block : Block
  added : Nat
deriving DecidableEq, Repr

/-- The mutable fields of `PieceManager` that the selection policy reads:
the peer availability map (peer id to bitfield), the pending-request table,
and the three piece buckets. -/
structure PieceManagerState where
  peers : List (Nat × List Bool)
  pending_blocks : List PendingRequest
  missing_pieces : List Piece
  ongoing_pieces : List Piece
  have_pieces : List Piece
deriving DecidableEq, Repr

/-- `self.max_pending_time = 300000` (five minutes in milliseconds). -/
def max_pending_time : Nat := 300000

/-- Python `self.peers[peer_id]`: dictionary lookup, `KeyError` when the
peer id is absent. -/
def lookupPeer (s : PieceManagerState) (pid : Nat) : Option (List Bool) :=
  (s.peers.find? (fun q => q.1 = pid)).map (fun q => q.2)

/-- Indexing a peer bitfield (`bitstring.BitArray`); out-of-range indexing
raises `IndexError`. -/
def bitfieldGet (bf : List Bool) (i : Nat) : Except PyError Bool :=
  match bf.get? i with
  | some b => Except.ok b
  | none => Except.error PyError.indexError

/-- The scan inside `PieceManager.expired_requests`: walk the pending table;
for the first entry whose piece the peer claims and whose age exceeds
`max_pending_time`, the source executes `request.added = current` — but
`PendingRequest` is a namedtuple, so this assignment raises
`AttributeError` before the block can be returned. -/
def expiredLoop (bf : List Bool) (current : Nat) :
    List PendingRequest → Except PyError (Option Block)
  | [] => Except.ok none
  | r :: rs => do
    let claimed ← bitfieldGet bf r.block.piece
    if claimed then
      if r.added + max_pending_time < current then
        Except.error (PyError.attributeError "added")
      else
        expiredLoop bf current rs
    else
      expiredLoop bf current rs

/-- `PieceManager.expired_requests(peer_id)`.  `current` is the wall-clock
time in milliseconds (`int(round(time.time()*1000))`), passed explicitly. -/
def expired_requests (s : PieceManagerState) (pid : Nat) (current : Nat) :
    Except PyError (Option Block) :=
  match lookupPeer s pid with
  | none => Except.error PyError.keyError
  | some bf => expiredLoop bf current s.pending_blocks

/-- `PieceManager.next_request(peer_id)`.  After the membership test the
source calls `self.expired_requests(peer_id)`; when that yields no block it
evaluates `self.next_ongoing(peer_id)` — but `PieceManager` defines
`self_ongoing`, not `next_ongoing`, so the attribute lookup raises
`AttributeError`. -/
def next_request (s : PieceManagerState) (pid : Nat) (current : Nat) :
    Except PyError (Option Block) :=
  if (s.peers.find? (fun q => q.1 = pid)).isNone then
    Except.ok none
  else do
    let block ← expired_requests s pid current
    match block with
    | some b => Except.ok (some b)
    | none => Except.error (PyError.attributeError "next_ongoing")

/-! ## Message codec (`peer_connection.py`) -/

/-- `REQUEST_SIZE = 2**14`. -/
def REQUEST_SIZE : Nat := 2 ^ 14

/-- The wire messages of `peer_connection.py`.  The Python BitField object
stores a `bitstring.BitArray` built from the payload bytes; it is modelled
by those bytes. -/
inductive Message
  | keepAlive
  | choke
  | unchoke
  | interested
  | notInterested
  | have (index : Nat)
  | bitfield (data : List Nat)
  | request (index begin_ length : Nat)
  | piece (index begin_ : Nat) (block : List Nat)
  | cancel (index begin_ length : Nat)
deriving DecidableEq, Repr

/-- The per-class `encode` methods.  `KeepAlive`, `Choke`, `Unchoke` and
`NotInterested` do not override the abstract `PeerMessage.encode`, whose
body is `pass`, so encoding them returns `None` (`Except.ok none`).
`BitField.encode` passes `self.bitfield` — a `bitstring.BitArray`, not a
bytes object — as the argument of the `struct.pack` format item
`str(bits_length) + 's'`, and `struct.pack` rejects it with `struct.error`
(the argument for an `s` item must be a bytes object), so encoding a
bitfield raises. -/
def encodeMsg : Message → Except PyError (Option (List Nat))
  | Message.interested => Except.ok (some (u32be 1 ++ [2]))
  | Message.have i => Except.ok (some (u32be 5 ++ [4] ++ u32be i))
  | Message.bitfield _ => Except.error PyError.structError
  | Message.request i b l =>
      Except.ok (some (u32be 13 ++ [6] ++ u32be i ++ u32be b ++ u32be l))
  | Message.piece i b blk =>
      Except.ok (some (u32be (9 + blk.length) ++ [7] ++ u32be i ++ u32be b ++ blk))
  | Message.cancel i b l =>
      Except.ok (some (u32be 13 ++ [8] ++ u32be i ++ u32be b ++ u32be l))
  | _ => Except.ok none

/-- `Have.decode`: `struct.unpack` with format `>IbI` requires exactly nine
bytes and raises `struct.error` otherwise. -/
def haveDecode (data : List Nat) : Except PyError Message :=
  if data.length = 9 then Except.ok (Message.have (u32val (data.drop 5)))
  else Except.error PyError.structError

/-- `Request.decode`: format `>IbIII`, exactly 17 bytes. -/
def requestDecode (data : List Nat) : Except PyError Message :=
  if data.length = 17 then
    Except.ok (Message.request (u32val (data.drop 5)) (u32val (data.drop 9))
      (u32val (data.drop 13)))
  else Except.error PyError.structError

/-- `Cancel.decode`: format `>IbIII`, exactly 17 bytes. -/
def cancelDecode (data : List Nat) : Except PyError Message :=
  if data.length = 17 then
    Except.ok (Message.cancel (u32val (data.drop 5)) (u32val (data.drop 9))
      (u32val (data.drop 13)))
  else Except.error PyError.structError

/-- `BitField.decode`: re-reads the length field from the data, then
unpacks with format `>Ib{length-1}s`, which requires `length ≥ 1` (a
negative string width is a `struct.error`) and exactly `4 + length`
bytes. -/
def bitFieldDecode (data : List Nat) : Except PyError Message :=
  let ml := u32val data
  if 1 ≤ ml ∧ data.length = 4 + ml then Except.ok (Message.bitfield (data.drop 5))
  else Except.error PyError.structError

/-- `Piece.decode`: re-reads the length field, then unpacks
`>IbII{length-9}s` over `data[:length+4]`; this needs `length ≥ 9` and at
least `length + 4` bytes (extra trailing bytes are sliced away). -/
def pieceDecode (data : List Nat) : Except PyError Message :=
  let ml := u32val data
  if 9 ≤ ml ∧ 4 + ml ≤ data.length then
    Except.ok (Message.piece (u32val (data.drop 5)) (u32val (data.drop 9))
      ((data.take (4 + ml)).drop 13))
  else Except.error PyError.structError

/-- `PeerStreamIterator.parse`, acting on the buffer.  Returns the parsed
message (if any) together with the buffer left behind.  Faithful quirks of
the source: the guard is the strict `len(self.buffer) > 4`; a zero length
yields `KeepAlive` *without* consuming the four header bytes; frame
completeness is tested with `len(self.buffer) >= message_length`, which
forgets the 4-byte header; and the unknown-id branch only logs — it never
calls `consume()`, so the buffer is returned unchanged. -/
def parse (buffer : List Nat) : Except PyError (Option Message × List Nat) :=
  if 4 < buffer.length then
    let mlen := u32val buffer
    if mlen = 0 then Except.ok (some Message.keepAlive, buffer)
    else if mlen ≤ buffer.length then
      let mid := buffer.getD 4 0
      let data := buffer.take (4 + mlen)
      let rest := buffer.drop (4 + mlen)
      if mid = 5 then do
        let m ← bitFieldDecode data
        Except.ok (some m, rest)
      else if mid = 2 then Except.ok (some Message.interested, rest)
      else if mid = 3 then Except.ok (some Message.notInterested, rest)
      else if mid = 0 then Except.ok (some Message.choke, rest)
      else if mid = 1 then Except.ok (some Message.unchoke, rest)
      else if mid = 4 then do
        let m ← haveDecode data
        Except.ok (some m, rest)
      else if mid = 7 then do
        let m ← pieceDecode data
        Except.ok (some m, rest)
      else if mid = 6 then do
        let m ← requestDecode data
        Except.ok (some m, rest)
      else if mid = 8 then do
        let m ← cancelDecode data
        Except.ok (some m, rest)
      else Except.ok (none, buffer)
    else Except.ok (none, buffer)
  else Except.ok (none, buffer)

/-- Outcome of running the stream iterator to exhaustion: the messages
yielded, plus either the residual buffer at a clean stop, an exception
swallowed into `StopAsyncIteration` (the source logs it and ends the
iteration), or non-termination. -/
inductive StreamOut
  | finished (msgs : List Message) (residual : List Nat)
  | errored (msgs : List Message)
  | diverged (msgs : List Message)
deriving DecidableEq, Repr

/-- The EOF drain of `PeerStreamIterator.__anext__`: once `reader.read`
keeps returning empty, each call parses the buffer once and yields the
message, stopping when `parse` returns `None`.  A yielded non-keep-alive
consumes at least five bytes, so `buffer.length + 1` rounds of fuel exceed
every terminating run; a yielded `KeepAlive` leaves the buffer unchanged
and the real loop repeats forever, which exhausts the fuel and is reported
as `diverged`. -/
def drain : Nat → List Nat → List Message → StreamOut
  | 0, _, acc => StreamOut.diverged acc
  | fuel + 1, buf, acc =>
    match parse buf with
    | Except.error _ => StreamOut.errored acc
    | Except.ok (none, buf') => StreamOut.finished acc buf'
    | Except.ok (some m, buf') => drain fuel buf' (acc ++ [m])

/-- The chunk phase of `PeerStreamIterator.__anext__`: each read chunk is
appended to the buffer and `parse` is called exactly once; a raised
exception is logged and ends the iteration.  After the last chunk the
reader is at EOF and the drain loop runs. -/
def feed : List Nat → List (List Nat) → List Message → StreamOut
  | buf, [], acc => drain (buf.length + 1) buf acc
  | buf, c :: cs, acc =>
    match parse (buf ++ c) with
    | Except.error _ => StreamOut.errored acc
    | Except.ok (none, b) => feed b cs acc
    | Except.ok (some m, b) => feed b cs (acc ++ [m])

/-- Run the stream decoder over a sequence of read chunks, starting from an
empty buffer. -/
def runChunks (chunks : List (List Nat)) : StreamOut :=
  feed [] chunks []

/-! ## Peer-connection message loop state (`PeerConnection.start`) -/

/-- The string tags stored in the `my_state` / `peer_state` lists of
`PeerConnection`. -/
inductive StateTag
  | choked
  | interested
  | pending_request
  | stopped
deriving DecidableEq, Repr

/-- The two state lists of a peer connection. -/
structure ConnState where
  my_state : List StateTag
  peer_state : List StateTag
deriving DecidableEq, Repr

/-- Python `list.remove(x)`: removes the first occurrence, raising
`ValueError` when the element is absent. -/
def listRemove (l : List StateTag) (t : StateTag) : Except PyError (List StateTag) :=
  if t ∈ l then Except.ok (l.erase t) else Except.error PyError.valueError

/-- The state effect of one iteration of the message loop in
`PeerConnection.start` (the `elif type(message) is ...` chain).  Calls into
the piece manager (`add_peer`, `update_peer`, `on_block_cb`) are external
effects that do not touch `my_state` / `peer_state`.  Faithful quirks: the
`Choke` branch only appends `choked` and does *not* remove
`pending_request`; the `Piece` branch removes `pending_request`
unconditionally, raising `ValueError` when it is absent. -/
def handle_message (st : ConnState) (m : Message) : Except PyError ConnState :=
  match m with
  | Message.bitfield _ => Except.ok st
  | Message.interested =>
      Except.ok { st with peer_state := st.peer_state ++ [StateTag.interested] }
  | Message.notInterested =>
      Except.ok { st with peer_state :=
        if StateTag.interested ∈ st.peer_state then st.peer_state.erase StateTag.interested
        else st.peer_state }
  | Message.choke =>
      Except.ok { st with my_state := st.my_state ++ [StateTag.choked] }
  | Message.unchoke =>
      Except.ok { st with my_state :=
        if StateTag.choked ∈ st.my_state then st.my_state.erase StateTag.choked
        else st.my_state }
  | Message.have _ => Except.ok st
  | Message.keepAlive => Except.ok st
  | Message.piece _ _ _ => do
      let ms ← listRemove st.my_state StateTag.pending_request
      Except.ok { st with my_state := ms }
  | Message.request _ _ _ => Except.ok st
  | Message.cancel _ _ _ => Except.ok st

/-! ## `PieceManager.initiate_pieces` -/

/-- The metainfo fields that `initiate_pieces` reads: per-piece digests,
piece length and total size. -/
structure Torrent where
  pieces : List (List Nat)
  piece_length : Nat
  total_size : Nat
deriving DecidableEq, Repr

/-- The source evaluates `math.ciel(num/den)`; the `math` module has no
attribute `ciel` (a misspelling of `ceil`), so the attribute lookup raises
`AttributeError` before the division result is used.  The two arguments
record the quotient that was being taken. -/
def math_ciel (_num _den : Nat) : Except PyError Nat :=
  Except.error (PyError.attributeError "ciel")

/-- Python `blocks[-1].length = n` rewriting of the last block; `blocks`
is never empty at this point in the source. -/
def setLastBlockLength (blocks : List Block) (n : Nat) : List Block :=
  match blocks.getLast? with
  | some b => blocks.dropLast ++ [{ b with length := n }]
  | none => blocks

/-- `PieceManager.initiate_pieces`, statement by statement.  Its third
statement already evaluates `math.ciel(torrent.piece_length / REQUEST_SIZE)`
and therefore raises `AttributeError`; the loop below it is translated
faithfully but can never run. -/
def initiate_pieces (t : Torrent) : Except PyError (List Piece) := do
  let totalPieces := t.pieces.length
  let stdPieceBlocks ← math_ciel t.piece_length REQUEST_SIZE
  t.pieces.enum.mapM (fun p => do
    let index := p.1
    let hashValue := p.2
    if index < totalPieces - 1 then
      Except.ok (Piece.mk index
        ((List.range stdPieceBlocks).map
          (fun o => mkBlock index (o * REQUEST_SIZE) REQUEST_SIZE)) hashValue)
    else do
      let lastLength := t.total_size % t.piece_length
      let numBlocks ← math_ciel lastLength REQUEST_SIZE
      let blocks := (List.range numBlocks).map
        (fun o => mkBlock index (o * REQUEST_SIZE) REQUEST_SIZE)
      let blocks :=
        if lastLength % REQUEST_SIZE > 0 then
          setLastBlockLength blocks (lastLength % REQUEST_SIZE)
        else blocks
      Except.ok (Piece.mk index blocks hashValue))

/-! ## Tracker announce (`torrent_client.py` / `tracker.py`) -/

/-- The value `TorrentClient.start` passes as `first` to `Tracker.connect`:
`previous if previous else False`.  `previous` is `None` before the first
announce and the wall-clock time of the last announce afterwards; `None`,
`False` and `0.0` are all falsy, so the falsy outcomes are merged into
`none`. -/
def first_arg (previous : Option Nat) : Option Nat :=
  match previous with
  | none => none
  | some t => if t = 0 then none else some t

/-- `Tracker.connect` adds `event=started` to the query parameters exactly
when `if first:` finds the passed value truthy. -/
def event_in_params (first : Option Nat) : Bool :=
  match first with
  | none => false
  | some t => t != 0

/-- Whether one announce carries `event=started`, as a function of the
`previous` variable of the announce loop. -/
def announce_sends_event (previous : Option Nat) : Bool :=
  event_in_params (first_arg previous)

/-- The sequence of `event=started` flags over a run of the announce loop:
`previous` starts as `None` and is set to the current time after each
announce.  The input lists the wall-clock times of the announces. -/
def announce_event_flags : Option Nat → List Nat → List Bool
  | _, [] => []
  | prev, t :: ts => announce_sends_event prev :: announce_event_flags (some t) ts

/-! ## `Handshake.decode` -/

/-- The decoded handshake fields. -/
structure Handshake where
  info_hash : List Nat
  peer_id : List Nat
deriving DecidableEq, Repr

/-- `Handshake.decode`: returns `None` for fewer than 68 bytes; otherwise
unpacks with format `>B19s8x20s20s` and keeps only `parts[2]` (bytes
28..47) and `parts[3]` (bytes 48..67) — the protocol-string length, the
protocol string and the reserved bytes are discarded unexamined.
`struct.unpack` with a 68-byte format raises `struct.error` unless the
input is exactly 68 bytes long. -/
def handshake_decode (data : List Nat) : Except PyError (Option Handshake) :=
  if data.length < 68 then Except.ok none
  else if data.length = 68 then
    Except.ok (some ⟨(data.drop 28).take 20, (data.drop 48).take 20⟩)
  else Except.error PyError.structError

/-! ## Claim theorems -/

/-- A one-block piece whose single block is `Retrieved` with data `[0]` and
whose metainfo digest is twenty zero bytes. -/
def c1piece : Piece :=
  ⟨0, [⟨0, 0, 1, BlockStatus.retrieved, some [0]⟩], List.replicate 20 0⟩

set_option maxRecDepth 100000 in
/-- C1: the claim says `Piece.is_complete()` is true iff every block has
status `Retrieved`, independent of contents, with the hash comparison a
separate check.  In the source, `is_complete` *is* the hash comparison: on
a piece whose only block is `Retrieved` it still returns `False` because
the digest does not match the data, contradicting the claim.  (The
separate check the claim refers to, `piece.is_hash_matching()` as invoked
by `PieceManager.block_recieved`, does not exist on `Piece` at all.) -/
theorem c1_is_complete_is_a_hash_check :
    (∀ b ∈ c1piece.blocks, b.status = BlockStatus.retrieved) ∧
    c1piece.is_complete = Except.ok false := by
  decide

/-- A manager state in which peer 7 is registered but claims no piece:
no expired pending block, no ongoing piece, and no claimed missing piece. -/
def c2state : PieceManagerState :=
  ⟨[(7, [false])], [], [⟨0, [mkBlock 0 0 16384], List.replicate 20 0⟩], [], []⟩

/-- C2: the claim says `next_request` returns none when no piece the peer
claims remains unfinished, rather than failing.  In the source, whenever
`expired_requests` yields no block the call `self.next_ongoing(peer_id)`
raises `AttributeError` — the method is actually named `self_ongoing` —
so `next_request` fails instead of returning none. -/
theorem c2_next_request_raises_attribute_error :
    next_request c2state 7 1000
      = Except.error (PyError.attributeError "next_ongoing") := by
  decide

/-- A manager state with one pending request for piece 0 first requested at
t = 0 ms, and peer 7 claiming piece 0. -/
def c3state : PieceManagerState :=
  ⟨[(7, [true])], [⟨⟨0, 0, 16384, BlockStatus.pending, none⟩, 0⟩], [],
   [⟨0, [⟨0, 0, 16384, BlockStatus.pending, none⟩], List.replicate 20 0⟩], []⟩

/-- C3: the claim says an entry with `now − first_request_time ≥ 300000 ms`
for a claimed piece is returned with its timestamp reset and kept in the
table.  In the source, once such an entry is found, `request.added =
current` raises `AttributeError` (a `PendingRequest` namedtuple is
immutable), so no block is ever returned.  Moreover the age test is the
strict `added + max_pending_time < current`, so at an age of exactly
300000 ms the entry is not even considered expired. -/
theorem c3_expired_requests_raises_attribute_error :
    expired_requests c3state 7 300001
        = Except.error (PyError.attributeError "added") ∧
    expired_requests c3state 7 300000 = Except.ok none := by
  decide

/-- A partition of `encode(Have 0) ++ encode(Have 1)` that splits the
second frame as six bytes followed by three. -/
def c4chunks : List (List Nat) :=
  [[0, 0, 0, 5, 4, 0, 0, 0, 0], [0, 0, 0, 5, 4, 0], [0, 0, 1]]

/-- C4: the claim says every chunk partition of `encode(m1) ++ encode(m2)`
yields exactly `[m1, m2]` with an empty residual buffer.  For `m1 = Have 0`
and `m2 = Have 1`, the split below leaves six of the second frame's nine
bytes in the buffer; `parse` tests completeness with `len(buffer) >=
message_length`, forgetting the 4-byte header, treats the partial frame as
complete, and `Have.decode` raises `struct.error`, ending the stream after
only `[Have 0]`. -/
theorem c4_chunk_split_breaks_stream_decode :
    encodeMsg (Message.have 0) = Except.ok (some [0, 0, 0, 5, 4, 0, 0, 0, 0]) ∧
    encodeMsg (Message.have 1) = Except.ok (some [0, 0, 0, 5, 4, 0, 0, 0, 1]) ∧
    c4chunks.flatten = [0, 0, 0, 5, 4, 0, 0, 0, 0] ++ [0, 0, 0, 5, 4, 0, 0, 0, 1] ∧
    runChunks c4chunks = StreamOut.errored [Message.have 0] := by
  decide

/-- C6: the claim says a complete frame with an unknown id is consumed and
decoding continues with the following frames.  In the source the
unknown-id branch only logs, never calling `consume()`: on a buffer
holding an unknown-id frame (id 9) followed by a complete `Interested`
frame, `parse` returns the buffer unchanged and the stream ends having
yielded nothing — the `Interested` frame behind it is never decoded. -/
theorem c6_unknown_id_frame_never_consumed :
    parse [0, 0, 0, 1, 9, 0, 0, 0, 1, 2]
        = Except.ok (none, [0, 0, 0, 1, 9, 0, 0, 0, 1, 2]) ∧
    runChunks [[0, 0, 0, 1, 9, 0, 0, 0, 1, 2]]
        = StreamOut.finished [] [0, 0, 0, 1, 9, 0, 0, 0, 1, 2] := by
  decide

/-- C7: the claim says processing `Choke` makes the local state choked and
clears `request_in_flight`, which must be cleared on both `Choke` and
`Piece`.  In the source the `Choke` branch only appends `choked`:
`pending_request` stays in `my_state`, while the `Piece` branch does
remove it. -/
theorem c7_choke_does_not_clear_pending_request :
    handle_message ⟨[StateTag.interested, StateTag.pending_request], []⟩ Message.choke
        = Except.ok ⟨[StateTag.interested, StateTag.pending_request,
                      StateTag.choked], []⟩ ∧
    StateTag.pending_request
        ∈ [StateTag.interested, StateTag.pending_request, StateTag.choked] ∧
    handle_message ⟨[StateTag.interested, StateTag.pending_request], []⟩
        (Message.piece 0 0 []) = Except.ok ⟨[StateTag.interested], []⟩ := by
  decide

/-- C8: the claim describes the block layout `initiate_pieces` creates.
The source never creates any block: its third statement evaluates
`math.ciel(...)`, and the `math` module has no attribute `ciel`, so
construction raises `AttributeError` for every torrent — here the
single-piece torrent with `piece_length = 16384`, `total_size = 10`. -/
theorem c8_initiate_pieces_raises_attribute_error :
    initiate_pieces ⟨[List.replicate 20 0], 16384, 10⟩
      = Except.error (PyError.attributeError "ciel") := by
  decide

/-- C9: the claim says `event=started` is sent on the first announce and
only on the first.  In the source `first = previous if previous else
False` passes `False` on the first announce (`previous` is `None`) and the
truthy previous timestamp on every later one, so a run with announces at
t = 100 s and t = 200 s sends the event flags `[false, true]` — the exact
inverse of the claimed `[true, false]`. -/
theorem c9_event_started_flag_is_inverted :
    announce_event_flags none [100, 200] = [false, true] ∧
    announce_event_flags none [100, 200] ≠ [true, false] := by
  decide

/-- Length of a packed big-endian word. -/
theorem u32be_length (n : Nat) : (u32be n).length = 4 := rfl

/-- Packing then unpacking a 32-bit word is the identity, whatever trails
the four bytes. -/
theorem u32val_u32be_append (n : Nat) (rest : List Nat) (h : n < 4294967296) :
    u32val (u32be n ++ rest) = n := by
  simp [u32be, u32val]
  omega

set_option maxHeartbeats 1000000 in
/-- Parsing a well-formed `Piece` frame recovers the fields. -/
theorem parse_piece_encode (i b : Nat) (blk : List Nat) (hi : i < 4294967296)
    (hb : b < 4294967296) (hL : 9 + blk.length < 4294967296) :
    parse (u32be (9 + blk.length) ++ [7] ++ u32be i ++ u32be b ++ blk)
      = Except.ok (some (Message.piece i b blk), []) := by
  rw [List.append_assoc, List.append_assoc, List.append_assoc]
  set buf := u32be (9 + blk.length) ++ ([7] ++ (u32be i ++ (u32be b ++ blk))) with hbuf
  have hlen : buf.length = 13 + blk.length := by simp [hbuf, u32be]; try omega
  have hval : u32val buf = 9 + blk.length := by rw [hbuf]; exact u32val_u32be_append _ _ hL
  have hmid : buf.getD 4 0 = 7 := by simp [hbuf, u32be]
  have htake : buf.take (4 + (9 + blk.length)) = buf :=
    List.take_of_length_le (by rw [hlen]; omega)
  have hdrop : buf.drop (4 + (9 + blk.length)) = [] :=
    List.drop_of_length_le (by rw [hlen]; omega)
  have hdrop5 : buf.drop 5 = u32be i ++ (u32be b ++ blk) := by simp [hbuf, u32be]
  have hdrop9 : buf.drop 9 = u32be b ++ blk := by simp [hbuf, u32be]
  have hdrop13 : buf.drop 13 = blk := by simp [hbuf, u32be]
  have hu32i : u32val (u32be i ++ (u32be b ++ blk)) = i := u32val_u32be_append _ _ hi
  have hu32b : u32val (u32be b ++ blk) = b := u32val_u32be_append _ _ hb
  unfold parse
  simp only [hval, hlen, hmid, htake, hdrop, hdrop5, hdrop9, hdrop13,
             hu32i, hu32b, pieceDecode, bind, Except.bind]
  split_ifs <;> first | rfl | omega | contradiction

/-- The messages whose encoder round-trips: the five kinds with a correct
`encode` override, with every packed integer in `struct.pack` range. -/
def roundTrips : Message → Prop
  | Message.interested => True
  | Message.have i => i < 4294967296
  | Message.request i b l => i < 4294967296 ∧ b < 4294967296 ∧ l < 4294967296
  | Message.piece i b blk =>
      i < 4294967296 ∧ b < 4294967296 ∧ 9 + blk.length < 4294967296
  | Message.cancel i b l => i < 4294967296 ∧ b < 4294967296 ∧ l < 4294967296
  | _ => False

/-- C5 (counterexample): `decode(encode(m)) == m` fails as a statement
about every message kind.  `Choke` (like `Unchoke`, `NotInterested` and
`KeepAlive`) never overrides the abstract `encode`, so encoding it returns
`None` and there are no bytes to decode; and `BitField.encode` raises
`struct.error` (it hands the `BitArray` itself to the `s` item of
`struct.pack`, which requires a bytes object), so the one-byte bitfield
`0x80` is never encoded at all. -/
theorem c5_roundtrip_counterexample :
    encodeMsg Message.choke = Except.ok none ∧
    encodeMsg (Message.bitfield [128]) = Except.error PyError.structError := by
  decide

/-- C5 (amended): for the kinds with a correct encoder — `Interested`,
`Have`, `Request`, `Piece` and `Cancel` — with all packed integers below
`2^32`, feeding the encoding to the stream parser yields the original
message back and consumes the whole frame.  The other kinds cannot round
trip: `KeepAlive`, `Choke`, `Unchoke` and `NotInterested` have no encoder
(`encode` returns `None`), and `BitField.encode` raises `struct.error`,
as shown by the counterexample. -/
theorem c5_roundtrip_implemented_kinds (m : Message) (bs : List Nat)
    (henc : encodeMsg m = Except.ok (some bs)) (h : roundTrips m) :
    parse bs = Except.ok (some m, []) := by
  cases m
  · simp [roundTrips] at h
  · simp [roundTrips] at h
  · simp [roundTrips] at h
  · simp only [encodeMsg, Except.ok.injEq, Option.some.injEq] at henc
    subst henc
    decide
  · simp [roundTrips] at h
  · rename_i i
    simp only [roundTrips] at h
    simp only [encodeMsg, Except.ok.injEq, Option.some.injEq] at henc
    subst henc
    simp [parse, u32be, u32val, haveDecode, List.getD, bind, Except.bind]
    omega
  · simp [roundTrips] at h
  · rename_i i b l
    obtain ⟨hi, hb, hl⟩ := h
    simp only [encodeMsg, Except.ok.injEq, Option.some.injEq] at henc
    subst henc
    simp [parse, u32be, u32val, requestDecode, List.getD, bind, Except.bind]
    omega
  · rename_i i b blk
    obtain ⟨hi, hb, hL⟩ := h
    simp only [encodeMsg, Except.ok.injEq, Option.some.injEq] at henc
    subst henc
    exact parse_piece_encode i b blk hi hb hL
  · rename_i i b l
    obtain ⟨hi, hb, hl⟩ := h
    simp only [encodeMsg, Except.ok.injEq, Option.some.injEq] at henc
    subst henc
    simp [parse, u32be, u32val, cancelDecode, List.getD, bind, Except.bind]
    omega

/-- Witness for the amended C5 theorem at `Request 1 2 3`. -/
theorem c5_roundtrip_implemented_kinds_witness :
    parse [0, 0, 0, 13, 6, 0, 0, 0, 1, 0, 0, 0, 2, 0, 0, 0, 3]
      = Except.ok (some (Message.request 1 2 3), []) :=
  c5_roundtrip_implemented_kinds (Message.request 1 2 3) _ (by decide)
    (by norm_num [roundTrips])

/-- C10: for every input, `Handshake.decode` returns `None` exactly when
the input is shorter than 68 bytes, and on every 68-byte input it returns
the handshake whose info-hash is bytes 28..47 and peer-id bytes 48..67,
with the first 28 bytes never examined. -/
theorem c10_handshake_decode_slices (data : List Nat) :
    (handshake_decode data = Except.ok none ↔ data.length < 68) ∧
    (data.length = 68 →
      handshake_decode data
        = Except.ok (some ⟨(data.drop 28).take 20, (data.drop 48).take 20⟩)) := by
  constructor
  · unfold handshake_decode
    split_ifs with h1 h2
    · simp [h1]
    · simp [h1, h2]
    · simp [h1]
  · intro h
    unfold handshake_decode
    rw [if_neg (by omega), if_pos h]

/-- Witness for the C10 theorem at a concrete 68-byte input. -/
theorem c10_handshake_decode_slices_witness :
    handshake_decode (List.replicate 68 1)
      = Except.ok (some ⟨List.replicate 20 1, List.replicate 20 1⟩) := by
  have h := (c10_handshake_decode_slices (List.replicate 68 1)).2 (by decide)
  simpa using h

end NanoTorrent
